import Mathlib

/-!
Verification of the Home Assistant integration-adapter fragment:
the WS66i data-update coordinator (`homeassistant/components/ws66i/coordinator.py`)
and the Nexia base entities (`homeassistant/components/nexia/entity.py`),
shallowly embedded in Lean 4.
-/

namespace HASpec

deriving instance DecidableEq for Except

/-! ### WS66i coordinator (`ws66i/coordinator.py`) -/

/-- Vendor SDK `pyws66i.ZoneStatus`: the record returned by `WS66i.zone_status`.
Its fields are opaque to the adapter code; a representative payload is kept
so that distinct statuses can be distinguished. -/
structure ZoneStatus where
  zone : Nat
  power : Bool
  volume : Nat
  deriving DecidableEq, Repr

/-- Outcome of one poll: the adapter raises `UpdateFailed msg` itself on a
vendor "no data" result, and any other exception `e` coming out of the vendor
call propagates unhandled as `vendor e`. -/
inductive PollError (ε : Type) where
  | updateFailed (msg : String)
  | vendor (e : ε)
  deriving DecidableEq, Repr

/-- State of `Ws66iDataUpdateCoordinator`: `ws66i` models the vendor handle
`self._ws66i` through its only used method `zone_status` (a `none` result is
the vendor's "no data"; `Except.error e` is a vendor exception), and `zones`
is `self._zones`, the configured zone ids. -/
structure Ws66iDataUpdateCoordinator (ε : Type) where
  ws66i : Nat → Except ε (Option ZoneStatus)
  zones : List Nat

/-- The loop body of `Ws66iDataUpdateCoordinator._update_all_zones`: iterate
over the zone ids in order, query `zone_status` for each, raise
`UpdateFailed(f"Failed to update zone {zone_id}")` on a `None` result, let a
vendor exception propagate, and otherwise append the status to `data`. -/
def update_zones_loop (ws : Nat → Except ε (Option ZoneStatus)) :
    List Nat → Except (PollError ε) (List ZoneStatus)
  | [] => Except.ok []
  | z :: rest =>
    match ws z with
    | Except.error e => Except.error (PollError.vendor e)
    | Except.ok none =>
        Except.error (PollError.updateFailed ("Failed to update zone " ++ toString z))
    | Except.ok (some st) =>
        match update_zones_loop ws rest with
        | Except.error e => Except.error e
        | Except.ok data => Except.ok (st :: data)

/-- `Ws66iDataUpdateCoordinator._update_all_zones`: run the loop over
`self._zones` with `self._ws66i.zone_status`. -/
def Ws66iDataUpdateCoordinator.update_all_zones (c : Ws66iDataUpdateCoordinator ε) :
    Except (PollError ε) (List ZoneStatus) :=
  update_zones_loop c.ws66i c.zones

/-- `_update_all_zones` with the receiver threaded explicitly: the method body
assigns no attribute of `self` (it only reads `self._ws66i` and `self._zones`
and builds the local `data`), so the state it returns is the state it was
given. -/
def Ws66iDataUpdateCoordinator.update_all_zonesM (c : Ws66iDataUpdateCoordinator ε) :
    Ws66iDataUpdateCoordinator ε × Except (PollError ε) (List ZoneStatus) :=
  (c, c.update_all_zones)

/-- The zone ids actually passed to `zone_status` by one run of the loop:
every id up to and including the first one whose query does not yield a
status (the loop stops by raising there). -/
def queried_zones (ws : Nat → Except ε (Option ZoneStatus)) : List Nat → List Nat
  | [] => []
  | z :: rest =>
    match ws z with
    | Except.error _ => [z]
    | Except.ok none => [z]
    | Except.ok (some _) => z :: queried_zones ws rest

/-- Modelled from the spec: `hass.async_add_executor_job` is HomeAssistant
core, outside this fragment. Per the spec it merely delegates the blocking
call to an executor inside the host's poll: awaiting it yields the job's
return value, and an exception from the job is re-raised to the awaiter. -/
def async_add_executor_job (job : Unit → α) : α := job ()

/-- `Ws66iDataUpdateCoordinator._async_update_data`: returns
`await self.hass.async_add_executor_job(self._update_all_zones)`. -/
def Ws66iDataUpdateCoordinator.async_update_data (c : Ws66iDataUpdateCoordinator ε) :
    Except (PollError ε) (List ZoneStatus) :=
  async_add_executor_job (fun _ => c.update_all_zones)

/-! ### Nexia base entities (`nexia/entity.py`) -/

/-- Modelled from the spec: `nexia/const.py` is not part of this fragment.
The claims only compare composed signal names and copied fields, so the
concrete string values are immaterial; representative values are used. -/
def DOMAIN : String := "nexia"

/-- Modelled from the spec: manufacturer constant from the missing `const.py`. -/
def MANUFACTURER : String := "Trane"

/-- Modelled from the spec: attribution constant from the missing `const.py`. -/
def ATTRIBUTION : String := "Data provided by mynexia.com"

/-- Modelled from the spec: thermostat update-signal base name from the
missing `const.py`. -/
def SIGNAL_THERMOSTAT_UPDATE : String := "signal_thermostat_update"

/-- Modelled from the spec: zone update-signal base name from the missing
`const.py`. -/
def SIGNAL_ZONE_UPDATE : String := "signal_zone_update"

/-- Modelled from the spec: `ATTR_ATTRIBUTION` from `homeassistant.const`,
outside this fragment. -/
def ATTR_ATTRIBUTION : String := "attribution"

/-- Vendor SDK `nexia.thermostat.NexiaThermostat` as seen by the adapter:
an id plus the getters the adapter calls. -/
structure NexiaThermostat where
  thermostat_id : Nat
  model_field : String
  name_field : String
  firmware_field : String
  deriving DecidableEq, Repr

/-- Vendor getter `NexiaThermostat.get_model()`. -/
def NexiaThermostat.get_model (t : NexiaThermostat) : String := t.model_field

/-- Vendor getter `NexiaThermostat.get_name()`. -/
def NexiaThermostat.get_name (t : NexiaThermostat) : String := t.name_field

/-- Vendor getter `NexiaThermostat.get_firmware()`. -/
def NexiaThermostat.get_firmware (t : NexiaThermostat) : String := t.firmware_field

/-- Vendor SDK `nexia.zone.NexiaThermostatZone` as seen by the adapter:
an id, the parent thermostat, and the display name returned by `get_name()`. -/
structure NexiaThermostatZone where
  zone_id : Nat
  thermostat : NexiaThermostat
  name_field : String
  deriving DecidableEq, Repr

/-- Vendor getter `NexiaThermostatZone.get_name()`: the zone's display name. -/
def NexiaThermostatZone.get_name (z : NexiaThermostatZone) : String := z.name_field

/-- `NexiaHome` handle reachable from the coordinator; only `root_url` is
read (for `device_info.configuration_url`). -/
structure NexiaHome where
  root_url : String
  deriving DecidableEq, Repr

/-- `NexiaDataUpdateCoordinator` as used by the entities: only its
`nexia_home` attribute is read. -/
structure NexiaDataUpdateCoordinator where
  nexia_home : NexiaHome
  deriving DecidableEq, Repr

/-- `DeviceInfo` (a host-framework dict); only the keys this adapter writes
are modelled, each `none` when absent. The `identifiers` set literal
`{(DOMAIN, id)}` is kept as its one element. -/
structure DeviceInfo where
  configuration_url : Option String := none
  identifiers : Option (String × Nat) := none
  manufacturer : Option String := none
  model : Option String := none
  name : Option String := none
  sw_version : Option String := none
  suggested_area : Option String := none
  via_device : Option (String × Nat) := none
  deriving DecidableEq, Repr

/-- `NexiaEntity` state after `__init__(coordinator, name, unique_id)`:
`self._unique_id = unique_id`, `self._name = name`, and the coordinator is
stored by the `CoordinatorEntity` base. -/
structure NexiaEntity where
  coordinator : NexiaDataUpdateCoordinator
  uniqueIdField : String
  nameField : String
  deriving DecidableEq, Repr

/-- The `NexiaEntity.__init__` constructor, arguments in source order. -/
def mkNexiaEntity (coordinator : NexiaDataUpdateCoordinator)
    (name unique_id : String) : NexiaEntity :=
  ⟨coordinator, unique_id, name⟩

/-- Property `NexiaEntity.unique_id`: `return self._unique_id`. -/
def NexiaEntity.unique_id (e : NexiaEntity) : String := e.uniqueIdField

/-- Property `NexiaEntity.name`: `return self._name`. -/
def NexiaEntity.name (e : NexiaEntity) : String := e.nameField

/-- Property `NexiaEntity.extra_state_attributes`:
`return {ATTR_ATTRIBUTION: ATTRIBUTION}`. -/
def NexiaEntity.extra_state_attributes (e : NexiaEntity) : List (String × String) :=
  [(ATTR_ATTRIBUTION, ATTRIBUTION)]

/-- `NexiaThermostatEntity` extends `NexiaEntity` with
`self._thermostat = thermostat`. -/
structure NexiaThermostatEntity extends NexiaEntity where
  thermostat : NexiaThermostat
  deriving DecidableEq, Repr

/-- The `NexiaThermostatEntity.__init__` constructor: calls
`super().__init__(coordinator, name, unique_id)` then stores the thermostat. -/
def mkNexiaThermostatEntity (coordinator : NexiaDataUpdateCoordinator)
    (thermostat : NexiaThermostat) (name unique_id : String) : NexiaThermostatEntity :=
  ⟨mkNexiaEntity coordinator name unique_id, thermostat⟩

/-- Property `NexiaThermostatEntity.device_info`: builds the `DeviceInfo`
dict from the coordinator's `nexia_home.root_url` and the thermostat's
getters. -/
def NexiaThermostatEntity.device_info (e : NexiaThermostatEntity) : DeviceInfo :=
  { configuration_url := some e.coordinator.nexia_home.root_url
    identifiers := some (DOMAIN, e.thermostat.thermostat_id)
    manufacturer := some MANUFACTURER
    model := some e.thermostat.get_model
    name := some e.thermostat.get_name
    sw_version := some e.thermostat.get_firmware }

/-- The handler a dispatcher subscription registers; the only one used here
is `self.async_write_ha_state`. -/
inductive Handler where
  | async_write_ha_state
  deriving DecidableEq, Repr

/-- One `async_dispatcher_connect(hass, signal, handler)` call: the signal
name subscribed to and the handler registered for it. -/
structure DispatcherConnection where
  signal : String
  handler : Handler
  deriving DecidableEq, Repr

/-- `NexiaThermostatEntity.async_added_to_hass`: the dispatcher connections
it registers — one subscription to
`f"{SIGNAL_THERMOSTAT_UPDATE}-{self._thermostat.thermostat_id}"` with
`self.async_write_ha_state` as handler. -/
def NexiaThermostatEntity.async_added_to_hass (e : NexiaThermostatEntity) :
    List DispatcherConnection :=
  [⟨SIGNAL_THERMOSTAT_UPDATE ++ "-" ++ toString e.thermostat.thermostat_id,
    Handler.async_write_ha_state⟩]

/-- `NexiaThermostatEntity._signal_thermostat_update`: the signal name it
dispatches, `f"{SIGNAL_THERMOSTAT_UPDATE}-{self._thermostat.thermostat_id}"`. -/
def NexiaThermostatEntity.signal_thermostat_update (e : NexiaThermostatEntity) : String :=
  SIGNAL_THERMOSTAT_UPDATE ++ "-" ++ toString e.thermostat.thermostat_id

/-- `NexiaThermostatZoneEntity` extends `NexiaThermostatEntity` with
`self._zone = zone`. -/
structure NexiaThermostatZoneEntity extends NexiaThermostatEntity where
  zone : NexiaThermostatZone
  deriving DecidableEq, Repr

/-- The `NexiaThermostatZoneEntity.__init__` constructor: calls
`super().__init__(coordinator, zone.thermostat, name, unique_id)` then stores
the zone. -/
def mkNexiaThermostatZoneEntity (coordinator : NexiaDataUpdateCoordinator)
    (zone : NexiaThermostatZone) (name unique_id : String) : NexiaThermostatZoneEntity :=
  ⟨mkNexiaThermostatEntity coordinator zone.thermostat name unique_id, zone⟩

/-- Property `NexiaThermostatZoneEntity.device_info`: takes
`super().device_info` and `data.update(...)`s the `identifiers`, `name`,
`suggested_area` and `via_device` keys with zone-derived values. -/
def NexiaThermostatZoneEntity.device_info (e : NexiaThermostatZoneEntity) : DeviceInfo :=
  let data := e.toNexiaThermostatEntity.device_info
  let zone_name := e.zone.get_name
  { data with
    identifiers := some (DOMAIN, e.zone.zone_id)
    name := some zone_name
    suggested_area := some zone_name
    via_device := some (DOMAIN, e.zone.thermostat.thermostat_id) }

/-- `NexiaThermostatZoneEntity.async_added_to_hass`: first the super call's
connections, then a subscription to
`f"{SIGNAL_ZONE_UPDATE}-{self._zone.zone_id}"` with `async_write_ha_state`. -/
def NexiaThermostatZoneEntity.async_added_to_hass (e : NexiaThermostatZoneEntity) :
    List DispatcherConnection :=
  e.toNexiaThermostatEntity.async_added_to_hass ++
    [⟨SIGNAL_ZONE_UPDATE ++ "-" ++ toString e.zone.zone_id,
      Handler.async_write_ha_state⟩]

/-- `NexiaThermostatZoneEntity._signal_zone_update`: the signal name it
dispatches, `f"{SIGNAL_ZONE_UPDATE}-{self._zone.zone_id}"`. -/
def NexiaThermostatZoneEntity.signal_zone_update (e : NexiaThermostatZoneEntity) : String :=
  SIGNAL_ZONE_UPDATE ++ "-" ++ toString e.zone.zone_id

/-- Evaluating the `unique_id` property with the receiver threaded
explicitly: a Python `@property` getter with no assignment returns the
receiver unchanged next to its value. -/
def NexiaEntity.unique_idM (e : NexiaEntity) : NexiaEntity × String :=
  (e, e.unique_id)

/-- Evaluating the `name` property with the receiver threaded explicitly. -/
def NexiaEntity.nameM (e : NexiaEntity) : NexiaEntity × String :=
  (e, e.name)

/-- Evaluating `extra_state_attributes` with the receiver threaded
explicitly. -/
def NexiaEntity.extra_state_attributesM (e : NexiaEntity) :
    NexiaEntity × List (String × String) :=
  (e, e.extra_state_attributes)

/-- Evaluating `NexiaThermostatEntity.device_info` with the receiver
threaded explicitly. -/
def NexiaThermostatEntity.device_infoM (e : NexiaThermostatEntity) :
    NexiaThermostatEntity × DeviceInfo :=
  (e, e.device_info)

/-- Evaluating `NexiaThermostatZoneEntity.device_info` with the receiver
threaded explicitly (the method only builds locals `data` and `zone_name`;
it assigns no attribute of `self`). -/
def NexiaThermostatZoneEntity.device_infoM (e : NexiaThermostatZoneEntity) :
    NexiaThermostatZoneEntity × DeviceInfo :=
  (e, e.device_info)

/-! ### Concrete instances used by counterexamples and witnesses -/

/-- A concrete coordinator for the Nexia examples. -/
def exCoordinator : NexiaDataUpdateCoordinator := ⟨⟨"https://www.mynexia.com"⟩⟩

/-- A concrete thermostat for the Nexia examples. -/
def exThermostat : NexiaThermostat := ⟨123456, "XL850", "Downstairs", "5.9.1"⟩

/-- A concrete zone whose display name is "Bedroom". -/
def exZone : NexiaThermostatZone := ⟨83037337, exThermostat, "Bedroom"⟩

/-- A zone entity constructed with the name "Kitchen", which is not the
wrapped zone's display name. -/
def exZoneEntity : NexiaThermostatZoneEntity :=
  mkNexiaThermostatZoneEntity exCoordinator exZone "Kitchen" "uid-1"

/-- C2 counterexample: the entity `name` property returns the name given to
`__init__`, not the zone's `get_name()`; an entity constructed with the name
"Kitchen" around a zone named "Bedroom" refutes the claim as stated. -/
theorem nexia_zone_entity_name_not_zone_name :
    ¬ (∀ e : NexiaThermostatZoneEntity, e.toNexiaEntity.name = e.zone.get_name) := by
  intro h
  have hx := h exZoneEntity
  simp [exZoneEntity, exZone, mkNexiaThermostatZoneEntity, mkNexiaThermostatEntity,
    mkNexiaEntity, NexiaEntity.name, NexiaThermostatZone.get_name] at hx

/-- C2 (amended): the zone entity's `name` equals the name passed at
construction — it equals the zone's `get_name()` exactly when the entity is
constructed with that value — while the zone's display name does appear as
the `name` key of the entity's `device_info`. -/
theorem nexia_zone_entity_name_passthrough (c : NexiaDataUpdateCoordinator)
    (z : NexiaThermostatZone) (n u : String) :
    (mkNexiaThermostatZoneEntity c z n u).toNexiaEntity.name = n ∧
    ((mkNexiaThermostatZoneEntity c z n u).toNexiaEntity.name = z.get_name ↔
      n = z.get_name) ∧
    (mkNexiaThermostatZoneEntity c z n u).device_info.name = some z.get_name := by
  refine ⟨rfl, Iff.rfl, ?_⟩
  simp [mkNexiaThermostatZoneEntity, mkNexiaThermostatEntity, mkNexiaEntity,
    NexiaThermostatZoneEntity.device_info, NexiaThermostatEntity.device_info]

/-- C4: `NexiaEntity` passes its constructor arguments straight through:
`unique_id` returns the `unique_id` argument and `name` returns the `name`
argument. -/
theorem nexia_entity_passthrough (c : NexiaDataUpdateCoordinator) (n u : String) :
    (mkNexiaEntity c n u).unique_id = u ∧ (mkNexiaEntity c n u).name = n :=
  ⟨rfl, rfl⟩

/-- C5: `_signal_thermostat_update` dispatches
`"{SIGNAL_THERMOSTAT_UPDATE}-{thermostat_id}"`, the very signal name (with
`async_write_ha_state` as handler) that `async_added_to_hass` subscribes to;
likewise `_signal_zone_update` dispatches `"{SIGNAL_ZONE_UPDATE}-{zone_id}"`,
the name its own subscription uses. -/
theorem nexia_update_signals_forwarded :
    (∀ e : NexiaThermostatEntity,
      e.signal_thermostat_update =
        SIGNAL_THERMOSTAT_UPDATE ++ "-" ++ toString e.thermostat.thermostat_id ∧
      DispatcherConnection.mk e.signal_thermostat_update Handler.async_write_ha_state ∈
        e.async_added_to_hass) ∧
    (∀ e : NexiaThermostatZoneEntity,
      e.signal_zone_update = SIGNAL_ZONE_UPDATE ++ "-" ++ toString e.zone.zone_id ∧
      DispatcherConnection.mk e.signal_zone_update Handler.async_write_ha_state ∈
        e.async_added_to_hass) := by
  constructor
  · intro e
    exact ⟨rfl, by simp [NexiaThermostatEntity.async_added_to_hass,
      NexiaThermostatEntity.signal_thermostat_update]⟩
  · intro e
    exact ⟨rfl, by simp [NexiaThermostatZoneEntity.async_added_to_hass,
      NexiaThermostatZoneEntity.signal_zone_update]⟩

/-- C6: the Nexia entity properties are read-only — evaluated with the
receiver threaded explicitly, `unique_id`, `name`, `extra_state_attributes`
and `device_info` return the entity unchanged, with its stored name, unique
id, thermostat handle and zone handle intact. -/
theorem nexia_properties_read_only :
    (∀ e : NexiaEntity,
      e.unique_idM.1 = e ∧ e.nameM.1 = e ∧ e.extra_state_attributesM.1 = e) ∧
    (∀ e : NexiaThermostatEntity,
      e.device_infoM.1 = e ∧
      e.device_infoM.1.nameField = e.nameField ∧
      e.device_infoM.1.uniqueIdField = e.uniqueIdField ∧
      e.device_infoM.1.thermostat = e.thermostat) ∧
    (∀ e : NexiaThermostatZoneEntity,
      e.device_infoM.1 = e ∧
      e.device_infoM.1.nameField = e.nameField ∧
      e.device_infoM.1.uniqueIdField = e.uniqueIdField ∧
      e.device_infoM.1.thermostat = e.thermostat ∧
      e.device_infoM.1.zone = e.zone) :=
  ⟨fun _ => ⟨rfl, rfl, rfl⟩,
   fun _ => ⟨rfl, rfl, rfl, rfl⟩,
   fun _ => ⟨rfl, rfl, rfl, rfl, rfl⟩⟩

/-- C9: the zone entity's `device_info` overrides exactly `identifiers`
(from the zone id), `name` and `suggested_area` (both the zone's
`get_name()`) and `via_device` (the parent thermostat), while the
thermostat-derived keys produced by the parent class — `configuration_url`,
`manufacturer`, `model`, `sw_version` — are unchanged. -/
theorem nexia_zone_device_info_overrides (e : NexiaThermostatZoneEntity) :
    e.device_info.identifiers = some (DOMAIN, e.zone.zone_id) ∧
    e.device_info.name = some e.zone.get_name ∧
    e.device_info.suggested_area = some e.zone.get_name ∧
    e.device_info.via_device = some (DOMAIN, e.zone.thermostat.thermostat_id) ∧
    e.device_info.configuration_url =
      e.toNexiaThermostatEntity.device_info.configuration_url ∧
    e.device_info.manufacturer = e.toNexiaThermostatEntity.device_info.manufacturer ∧
    e.device_info.model = e.toNexiaThermostatEntity.device_info.model ∧
    e.device_info.sw_version = e.toNexiaThermostatEntity.device_info.sw_version :=
  ⟨rfl, rfl, rfl, rfl, rfl, rfl, rfl, rfl⟩

/-- C3: `_async_update_data` only hands `_update_all_zones` to the executor
and returns its result unchanged: on every coordinator state it equals the
synchronous result, succeeding with the same zone-status list and failing
with the same error. -/
theorem async_update_data_delegates (c : Ws66iDataUpdateCoordinator ε) :
    c.async_update_data = async_add_executor_job (fun _ => c.update_all_zones) ∧
    c.async_update_data = c.update_all_zones ∧
    (∀ data, c.async_update_data = Except.ok data ↔ c.update_all_zones = Except.ok data) ∧
    (∀ err, c.async_update_data = Except.error err ↔
      c.update_all_zones = Except.error err) :=
  ⟨rfl, rfl, fun _ => Iff.rfl, fun _ => Iff.rfl⟩

/-! ### WS66i loop lemmas -/

/-- If every zone in the list yields the status `f z`, the loop returns the
statuses in zone order. -/
lemma loop_ok_of_map (ws : Nat → Except ε (Option ZoneStatus)) (f : Nat → ZoneStatus) :
    ∀ l : List Nat, (∀ z ∈ l, ws z = Except.ok (some (f z))) →
      update_zones_loop ws l = Except.ok (l.map f) := by
  intro l
  induction l with
  | nil => intro _; rfl
  | cons z rest ih =>
    intro h
    have hz := h z (List.mem_cons_self z rest)
    have ih' := ih (fun y hy => h y (List.mem_cons_of_mem z hy))
    simp [update_zones_loop, hz, ih']

/-- The loop raises `UpdateFailed` exactly when some queried zone yields the
vendor's "no data" result. -/
lemma loop_failed_iff (ws : Nat → Except ε (Option ZoneStatus)) :
    ∀ l : List Nat,
      ((∃ msg, update_zones_loop ws l = Except.error (PollError.updateFailed msg)) ↔
        ∃ z ∈ queried_zones ws l, ws z = Except.ok none) := by
  intro l
  induction l with
  | nil => simp [update_zones_loop, queried_zones]
  | cons z rest ih =>
    cases hz : ws z with
    | error e => simp [update_zones_loop, queried_zones, hz]
    | ok o =>
      cases o with
      | none => simp [update_zones_loop, queried_zones, hz]
      | some st =>
        cases hrest : update_zones_loop ws rest with
        | error er => simpa [update_zones_loop, queried_zones, hz, hrest] using ih
        | ok data => simpa [update_zones_loop, queried_zones, hz, hrest] using ih

/-- The loop ends in a vendor exception `e` exactly when some queried zone's
query raised `e`: the exception propagates unchanged. -/
lemma loop_vendor_iff (ws : Nat → Except ε (Option ZoneStatus)) (e : ε) :
    ∀ l : List Nat,
      (update_zones_loop ws l = Except.error (PollError.vendor e) ↔
        ∃ z ∈ queried_zones ws l, ws z = Except.error e) := by
  intro l
  induction l with
  | nil => simp [update_zones_loop, queried_zones]
  | cons z rest ih =>
    cases hz : ws z with
    | error e' => simp [update_zones_loop, queried_zones, hz]
    | ok o =>
      cases o with
      | none => simp [update_zones_loop, queried_zones, hz]
      | some st =>
        cases hrest : update_zones_loop ws rest with
        | error er => simpa [update_zones_loop, queried_zones, hz, hrest] using ih
        | ok data => simpa [update_zones_loop, queried_zones, hz, hrest] using ih

/-- If every configured zone yields some status, the loop succeeds. -/
lemma loop_ok_of_all_some (ws : Nat → Except ε (Option ZoneStatus)) :
    ∀ l : List Nat, (∀ z ∈ l, ∃ st, ws z = Except.ok (some st)) →
      ∃ data, update_zones_loop ws l = Except.ok data := by
  intro l
  induction l with
  | nil => exact fun _ => ⟨[], rfl⟩
  | cons z rest ih =>
    intro h
    obtain ⟨st, hst⟩ := h z (List.mem_cons_self z rest)
    obtain ⟨data, hdata⟩ := ih (fun y hy => h y (List.mem_cons_of_mem z hy))
    exact ⟨st :: data, by simp [update_zones_loop, hst, hdata]⟩

/-- If the zones before `z` all yield statuses and `z` yields "no data", the
loop raises `UpdateFailed` naming `z` and queries exactly the zones up to and
including `z`. -/
lemma loop_short_circuit (ws : Nat → Except ε (Option ZoneStatus)) (f : Nat → ZoneStatus)
    (z : Nat) (post : List Nat) (hz : ws z = Except.ok none) :
    ∀ pre : List Nat, (∀ y ∈ pre, ws y = Except.ok (some (f y))) →
      update_zones_loop ws (pre ++ z :: post) =
        Except.error (PollError.updateFailed ("Failed to update zone " ++ toString z)) ∧
      queried_zones ws (pre ++ z :: post) = pre ++ [z] := by
  intro pre
  induction pre with
  | nil =>
    intro _
    constructor <;> simp [update_zones_loop, queried_zones, hz]
  | cons y pre ih =>
    intro h
    have hy := h y (List.mem_cons_self y pre)
    have ih' := ih (fun y' hy' => h y' (List.mem_cons_of_mem y hy'))
    constructor
    · simp [update_zones_loop, hy, ih'.1]
    · simp [queried_zones, hy, ih'.2]

/-! ### Claim theorems for the WS66i coordinator -/

/-- C1: `_update_all_zones` raises `UpdateFailed` exactly when `zone_status`
returns `None` for some queried zone; no other vendor result becomes an
error (if every zone yields a status the update succeeds), and a vendor
exception propagates out unchanged rather than being converted. -/
theorem update_all_zones_error_characterization (c : Ws66iDataUpdateCoordinator ε) :
    ((∃ msg, c.update_all_zones = Except.error (PollError.updateFailed msg)) ↔
      ∃ z ∈ queried_zones c.ws66i c.zones, c.ws66i z = Except.ok none) ∧
    (∀ e, c.update_all_zones = Except.error (PollError.vendor e) ↔
      ∃ z ∈ queried_zones c.ws66i c.zones, c.ws66i z = Except.error e) ∧
    ((∀ z ∈ c.zones, ∃ st, c.ws66i z = Except.ok (some st)) →
      ∃ data, c.update_all_zones = Except.ok data) :=
  ⟨loop_failed_iff c.ws66i c.zones,
   fun e => loop_vendor_iff c.ws66i e c.zones,
   loop_ok_of_all_some c.ws66i c.zones⟩

/-- C7: when every configured zone yields a status, `_update_all_zones`
returns one status per configured zone, in the zone list's order: the i-th
element is the status the vendor returned for the i-th zone id. -/
theorem update_all_zones_success (c : Ws66iDataUpdateCoordinator ε) (f : Nat → ZoneStatus)
    (h : ∀ z ∈ c.zones, c.ws66i z = Except.ok (some (f z))) :
    ∃ data, c.update_all_zones = Except.ok data ∧
      data.length = c.zones.length ∧
      ∀ i : Nat, data[i]? = (c.zones[i]?).map f := by
  refine ⟨c.zones.map f, loop_ok_of_map c.ws66i f c.zones h, by simp, ?_⟩
  intro i
  simp

/-- C8: if the zones before `z` in the configured list all yield statuses
and `z` is the first to yield "no data", the loop stops at `z` (the queried
zones are exactly the prefix up to `z`, so no later position is queried),
the raised `UpdateFailed` message names exactly `z`, and the coordinator's
own fields `_ws66i` and `_zones` are unchanged by the failed update. -/
theorem update_all_zones_short_circuit (ws : Nat → Except ε (Option ZoneStatus))
    (pre post : List Nat) (z : Nat) (f : Nat → ZoneStatus)
    (hpre : ∀ y ∈ pre, ws y = Except.ok (some (f y)))
    (hz : ws z = Except.ok none) :
    update_zones_loop ws (pre ++ z :: post) =
      Except.error (PollError.updateFailed ("Failed to update zone " ++ toString z)) ∧
    queried_zones ws (pre ++ z :: post) = pre ++ [z] ∧
    (∀ c : Ws66iDataUpdateCoordinator ε, c.ws66i = ws → c.zones = pre ++ z :: post →
      c.update_all_zonesM.1.ws66i = c.ws66i ∧
      c.update_all_zonesM.1.zones = c.zones ∧
      c.update_all_zonesM.2 =
        Except.error (PollError.updateFailed ("Failed to update zone " ++ toString z))) := by
  obtain ⟨h1, h2⟩ := loop_short_circuit ws f z post hz pre hpre
  refine ⟨h1, h2, ?_⟩
  intro c hws hzs
  refine ⟨rfl, rfl, ?_⟩
  simp [Ws66iDataUpdateCoordinator.update_all_zonesM,
    Ws66iDataUpdateCoordinator.update_all_zones, hws, hzs, h1]

/-! ### Concrete WS66i instances for witnesses -/

/-- A status builder for the examples. -/
def exF (z : Nat) : ZoneStatus := ⟨z, true, 10⟩

/-- A vendor where zone 3 answers "no data" and every other zone has a
status. -/
def exWs (z : Nat) : Except Unit (Option ZoneStatus) :=
  if z = 3 then Except.ok none else Except.ok (some (exF z))

/-- A coordinator whose third configured zone answers "no data". -/
def exCoord : Ws66iDataUpdateCoordinator Unit := ⟨exWs, [1, 2, 3, 4]⟩

/-- A coordinator where every configured zone has a status. -/
def exCoordOk : Ws66iDataUpdateCoordinator Unit :=
  ⟨fun z => Except.ok (some (exF z)), [1, 2]⟩

/-- Witness for C1 at concrete coordinators: the failing one raises
`UpdateFailed` and the healthy one succeeds. -/
theorem update_all_zones_error_characterization_witness :
    (∃ msg, exCoord.update_all_zones = Except.error (PollError.updateFailed msg)) ∧
    (∃ data, exCoordOk.update_all_zones = Except.ok data) :=
  ⟨(update_all_zones_error_characterization exCoord).1.mpr (by decide),
   (update_all_zones_error_characterization exCoordOk).2.2 (fun z _ => ⟨exF z, rfl⟩)⟩

/-- Witness for C7 at a concrete coordinator. -/
theorem update_all_zones_success_witness :
    ∃ data, exCoordOk.update_all_zones = Except.ok data ∧
      data.length = exCoordOk.zones.length ∧
      ∀ i : Nat, data[i]? = (exCoordOk.zones[i]?).map exF :=
  update_all_zones_success exCoordOk exF (fun z _ => rfl)

/-- Witness for C8 at a concrete vendor and coordinator. -/
theorem update_all_zones_short_circuit_witness :
    queried_zones exWs ([1, 2] ++ 3 :: [4]) = [1, 2] ++ [3] ∧
    exCoord.update_all_zonesM.2 =
      Except.error (PollError.updateFailed ("Failed to update zone " ++ toString 3)) := by
  have h := update_all_zones_short_circuit exWs [1, 2] [4] 3 exF (by decide) (by decide)
  exact ⟨h.2.1, (h.2.2 exCoord rfl rfl).2.2⟩

end HASpec
